import Mathlib

/-!
Verification development for the TimeCapsule repository.

The data model follows the `Capsule` type in `src/types` and the
`capsules` table of `schema.sql`; the store operations are shallow
embeddings of the Postgres-backed service (`createCapsule`,
`openCapsule`, `deleteCapsule`, `checkCapsuleStatus`, `getTimeLeft`),
of the haversine helper defined inline in the capsule API route, and
of `calculateDistance` / `isNearLocation` from `lib/geolocation` —
the module the store service imports, embedded over JavaScript number
semantics (`NaN` included) because the service calls it with
arguments of the wrong runtime type.  The database is
modelled as a list of rows; each SQL statement becomes the
corresponding pure transformation of that list together with the value
the service layer derives from `RETURNING id` (`result.rows.length > 0`).
Wall-clock reads (`new Date()`, `NOW()`) are injected as an explicit
`now` parameter measured in epoch milliseconds.
-/

namespace TimeCapsule

/-- The status enum `sealed | opened` from `src/types`. -/
inductive CapsuleStatus
  | sealed
  | opened
deriving DecidableEq

/-- The unlock method enum `immediate | time | location` from `src/types`. -/
inductive UnlockMethod
  | immediate
  | time
  | location
deriving DecidableEq

/-- A bare latitude/longitude pair, as supplied for the user position. -/
structure GeoPoint where
  latitude : ℝ
  longitude : ℝ

/-- The capsule anchor `location` object: `{latitude, longitude, name?}`. -/
structure CapsuleLocation where
  latitude : ℝ
  longitude : ℝ
  name : Option String

/-- One row of the `capsules` table, in the shape `mapRowToCapsule`
returns.  Timestamps are epoch milliseconds. -/
structure Capsule where
  id : String
  userId : String
  creatorName : Option String
  title : String
  content : String
  location : CapsuleLocation
  unlockMethod : UnlockMethod
  unlockTime : Option Int
  createdAt : Int
  openedAt : Option Int
  status : CapsuleStatus
  mediaUrls : List String

/-- The `CapsuleFormData` input type from `src/types`. -/
structure CapsuleFormData where
  title : String
  content : String
  location : CapsuleLocation
  unlockMethod : UnlockMethod
  unlockTime : Option Int

/-- `createCapsule` from the Postgres service: `INSERT INTO capsules
(id, user_id, creator_name, title, content, location, unlock_method,
unlock_time) VALUES ... RETURNING id`.  The generated uuid and the
creation instant are injected as `newId` and `now`.  Columns absent
from the column list take their schema defaults: status `sealed`,
`opened_at NULL`, `media_urls NULL` (mapped to `[]`).  The stored
`unlock_time` is `data.unlockTime` only when the method is `time` and
`data.unlockTime` is non-null, else `NULL`.  No validation is
performed on `data` before the insert. -/
def createCapsule (now : Int) (newId : String) (userId : String)
    (creatorName : Option String) (data : CapsuleFormData)
    (state : List Capsule) : List Capsule × String :=
  (state ++ [{
    id := newId
    userId := userId
    creatorName := creatorName
    title := data.title
    content := data.content
    location := data.location
    unlockMethod := data.unlockMethod
    unlockTime :=
      match data.unlockMethod, data.unlockTime with
      | UnlockMethod.time, some t => some t
      | _, _ => none
    createdAt := now
    openedAt := none
    status := CapsuleStatus.sealed
    mediaUrls := [] }], newId)

/-- `openCapsule` from the Postgres service: `UPDATE capsules SET
status = opened, opened_at = NOW() WHERE id = $2 AND status =
sealed RETURNING id`, with the service returning
`result.rows.length > 0`. -/
def openCapsule (now : Int) (capsuleId : String) (state : List Capsule) :
    List Capsule × Bool :=
  (state.map fun c =>
      if c.id = capsuleId ∧ c.status = CapsuleStatus.sealed then
        { c with status := CapsuleStatus.opened, openedAt := some now }
      else c,
   state.any fun c => decide (c.id = capsuleId ∧ c.status = CapsuleStatus.sealed))

/-- `deleteCapsule` from the Postgres service: `DELETE FROM capsules
WHERE id = $1 RETURNING id`, with the service returning
`result.rows.length > 0`. -/
def deleteCapsule (capsuleId : String) (state : List Capsule) :
    List Capsule × Bool :=
  (state.filter fun c => decide (c.id ≠ capsuleId),
   state.any fun c => decide (c.id = capsuleId))

/-- Store states reachable from the empty table through the mutating
operations of the service layer (`createCapsule`, `openCapsule`,
`deleteCapsule`; the remaining operations are pure `SELECT`s). -/
inductive Reachable : List Capsule → Prop
  | empty : Reachable []
  | createStep (now : Int) (newId userId : String) (creatorName : Option String)
      (data : CapsuleFormData) (s : List Capsule) :
      Reachable s → Reachable (createCapsule now newId userId creatorName data s).1
  | openStep (now : Int) (capsuleId : String) (s : List Capsule) :
      Reachable s → Reachable (openCapsule now capsuleId s).1
  | deleteStep (capsuleId : String) (s : List Capsule) :
      Reachable s → Reachable (deleteCapsule capsuleId s).1

/-- `deg2rad` from the capsule API route: `deg * (Math.PI / 180)`. -/
noncomputable def deg2rad (deg : ℝ) : ℝ := deg * (Real.pi / 180)

/-- JavaScript `Math.atan2 y x`, i.e. the argument of the complex
number `x + i*y`. -/
noncomputable def atan2 (y x : ℝ) : ℝ := Complex.arg ⟨x, y⟩

/-- The haversine intermediate value `a` computed by `isNearLocation`:
`sin(dLat/2)^2 + cos(lat1) * cos(lat2) * sin(dLon/2)^2` after
converting degrees to radians. -/
noncomputable def haversineTerm (location1 location2 : GeoPoint) : ℝ :=
  Real.sin (deg2rad (location2.latitude - location1.latitude) / 2) *
    Real.sin (deg2rad (location2.latitude - location1.latitude) / 2) +
  Real.cos (deg2rad location1.latitude) * Real.cos (deg2rad location2.latitude) *
    (Real.sin (deg2rad (location2.longitude - location1.longitude) / 2) *
      Real.sin (deg2rad (location2.longitude - location1.longitude) / 2))

/-- The `distance = R * c` computation of `isNearLocation`, with
`R = 6371` km and `c = 2 * atan2(sqrt a, sqrt (1 - a))`; kilometers. -/
noncomputable def haversineDistanceKm (location1 location2 : GeoPoint) : ℝ :=
  6371 * (2 * atan2 (Real.sqrt (haversineTerm location1 location2))
      (Real.sqrt (1 - haversineTerm location1 location2)))

/-- The same great-circle distance expressed in meters. -/
noncomputable def distanceMeters (a b : GeoPoint) : ℝ :=
  1000 * haversineDistanceKm a b

/-- `isNearLocation` as defined inline in the capsule API route: the
object-based haversine distance is at most `radiusKm`.  Only the
inline evaluator of the route uses this helper; the store service
imports a different `isNearLocation` from `lib/geolocation` (below). -/
def isNearLocation (location1 location2 : GeoPoint) (radiusKm : ℝ) : Prop :=
  haversineDistanceKm location1 location2 ≤ radiusKm

/-- A JavaScript number value: a real number or `NaN`.  Arguments of
non-numeric runtime type (an object, `undefined`) passed into a
numeric parameter behave as `NaN` in every arithmetic use, which is
how they are embedded at the one ill-typed call site below.
`Infinity` never arises in the embedded code (the only divisors are
the constants `180` and `2`), so it needs no constructor. -/
inductive JSNumber
  | num (val : ℝ)
  | nan

/-- JavaScript addition: `NaN` propagates. -/
noncomputable def jsAdd : JSNumber → JSNumber → JSNumber
  | JSNumber.num a, JSNumber.num b => JSNumber.num (a + b)
  | _, _ => JSNumber.nan

/-- JavaScript subtraction: `NaN` propagates. -/
noncomputable def jsSub : JSNumber → JSNumber → JSNumber
  | JSNumber.num a, JSNumber.num b => JSNumber.num (a - b)
  | _, _ => JSNumber.nan

/-- JavaScript multiplication: `NaN` propagates. -/
noncomputable def jsMul : JSNumber → JSNumber → JSNumber
  | JSNumber.num a, JSNumber.num b => JSNumber.num (a * b)
  | _, _ => JSNumber.nan

/-- JavaScript division by a nonzero constant: `NaN` propagates. -/
noncomputable def jsDiv : JSNumber → JSNumber → JSNumber
  | JSNumber.num a, JSNumber.num b => JSNumber.num (a / b)
  | _, _ => JSNumber.nan

/-- `Math.sin`: `NaN` propagates. -/
noncomputable def jsSin : JSNumber → JSNumber
  | JSNumber.num a => JSNumber.num (Real.sin a)
  | JSNumber.nan => JSNumber.nan

/-- `Math.cos`: `NaN` propagates. -/
noncomputable def jsCos : JSNumber → JSNumber
  | JSNumber.num a => JSNumber.num (Real.cos a)
  | JSNumber.nan => JSNumber.nan

/-- `Math.sqrt`: `NaN` on `NaN` and on negative arguments. -/
noncomputable def jsSqrt : JSNumber → JSNumber
  | JSNumber.num a => if 0 ≤ a then JSNumber.num (Real.sqrt a) else JSNumber.nan
  | JSNumber.nan => JSNumber.nan

/-- `Math.atan2`: `NaN` if either argument is `NaN`. -/
noncomputable def jsAtan2 : JSNumber → JSNumber → JSNumber
  | JSNumber.num y, JSNumber.num x => JSNumber.num (atan2 y x)
  | _, _ => JSNumber.nan

/-- The JavaScript `<=` comparison on numbers: false whenever either
operand is `NaN`. -/
noncomputable def jsLe : JSNumber → JSNumber → Bool
  | JSNumber.num a, JSNumber.num b => decide (a ≤ b)
  | _, _ => false

/-- `calculateDistance(lat1, lon1, lat2, lon2)` from `lib/geolocation`
(the module the store service imports as `./geolocation`): the
haversine distance in meters on an Earth of radius `6371e3` m,
embedded over JavaScript number semantics so that a `NaN` input
yields a `NaN` distance. -/
noncomputable def Geolocation.calculateDistance
    (lat1 lon1 lat2 lon2 : JSNumber) : JSNumber :=
  let R := JSNumber.num 6371000
  let phi1 := jsDiv (jsMul lat1 (JSNumber.num Real.pi)) (JSNumber.num 180)
  let phi2 := jsDiv (jsMul lat2 (JSNumber.num Real.pi)) (JSNumber.num 180)
  let dPhi := jsDiv (jsMul (jsSub lat2 lat1) (JSNumber.num Real.pi)) (JSNumber.num 180)
  let dLam := jsDiv (jsMul (jsSub lon2 lon1) (JSNumber.num Real.pi)) (JSNumber.num 180)
  let a := jsAdd
    (jsMul (jsSin (jsDiv dPhi (JSNumber.num 2))) (jsSin (jsDiv dPhi (JSNumber.num 2))))
    (jsMul
      (jsMul (jsMul (jsCos phi1) (jsCos phi2)) (jsSin (jsDiv dLam (JSNumber.num 2))))
      (jsSin (jsDiv dLam (JSNumber.num 2))))
  let c := jsMul (JSNumber.num 2)
    (jsAtan2 (jsSqrt a) (jsSqrt (jsSub (JSNumber.num 1) a)))
  jsMul R c

/-- `isNearLocation(userLat, userLng, capsuleLat, capsuleLng,
thresholdDistance = 50)` from `lib/geolocation`, the function the
store service actually imports: the haversine distance in meters is
at most the threshold, where a comparison against a `NaN` distance is
false.  The `50`-meter default of the omitted fifth argument is
supplied explicitly at the call site below. -/
noncomputable def Geolocation.isNearLocation
    (userLat userLng capsuleLat capsuleLng thresholdDistance : JSNumber) : Bool :=
  jsLe (Geolocation.calculateDistance userLat userLng capsuleLat capsuleLng)
    thresholdDistance

/-- The `getTimeLeft` helper: `Math.floor` of a quotient is `Int.fdiv`
and the JavaScript `%` operator is `Int.tmod`.  `86400000`, `3600000`
and `60000` are the milliseconds in a day, an hour and a minute. -/
def getTimeLeft (currentDate targetDate : Int) : String :=
  let millisecondsLeft := targetDate - currentDate
  let daysLeft := Int.fdiv millisecondsLeft 86400000
  let hoursLeft := Int.fdiv (Int.tmod millisecondsLeft 86400000) 3600000
  if 0 < daysLeft then
    toString daysLeft ++ " days and " ++ toString hoursLeft ++ " hours"
  else
    toString hoursLeft ++ " hours and " ++
      toString (Int.fdiv (Int.tmod millisecondsLeft 3600000) 60000) ++ " minutes"

/-- The decision record of the evaluator: canOpen and message. -/
structure StatusResult where
  canOpen : Bool
  message : String

open scoped Classical

/-- `checkCapsuleStatus` from the Postgres service.  The guards run in
source order: the opened short-circuit, then the time guard requiring
a non-null `unlockTime` (a null one falls through), then the location
guard, then the default immediate-access
result.  `new Date()` is injected as `now`; `now >= unlockTime`
compares epoch milliseconds.  The location branch calls
`isNearLocation(userLocation, capsuleLocation, 0.1)`, and the
`./geolocation` import resolves that name to the five-parameter
`Geolocation.isNearLocation` above, so the two position objects bind
to the numeric parameters `userLat` and `userLng` (behaving as `NaN`
in every arithmetic use), `0.1` binds to `capsuleLat`, `capsuleLng`
is `undefined` (`NaN`), and the threshold takes its default `50`;
the position values therefore never influence the result. -/
noncomputable def checkCapsuleStatus (now : Int) (capsule : Capsule)
    (userLocation : Option GeoPoint) : StatusResult :=
  if capsule.status = CapsuleStatus.opened then
    { canOpen := true, message := "This capsule has already been opened." }
  else
    match capsule.unlockMethod, capsule.unlockTime with
    | UnlockMethod.time, some unlockTime =>
      if unlockTime ≤ now then
        { canOpen := true, message := "This capsule is ready to be opened!" }
      else
        { canOpen := false,
          message := "This capsule will be unlockable in " ++
            getTimeLeft now unlockTime ++ "." }
    | _, _ =>
      if capsule.unlockMethod = UnlockMethod.location then
        match userLocation with
        | none =>
          { canOpen := false,
            message := "Please enable location services to open this capsule." }
        | some _ =>
          if Geolocation.isNearLocation JSNumber.nan JSNumber.nan
              (JSNumber.num 0.1) JSNumber.nan (JSNumber.num 50) then
            { canOpen := true,
              message := "You are near the capsule location. You can open it now!" }
          else
            { canOpen := false,
              message := "You need to be closer to the capsule location to open it." }
      else
        { canOpen := true, message := "This capsule is ready to be opened!" }

/-! Concrete sample inputs used to exercise the definitions. -/

/-- An anchor location at the origin. -/
def originAnchor : CapsuleLocation := { latitude := 0, longitude := 0, name := none }

/-- A user position at the origin. -/
def originPoint : GeoPoint := { latitude := 0, longitude := 0 }

/-- A capsule that has already been opened. -/
def openedCapsule : Capsule :=
  { id := "c1", userId := "u1", creatorName := none, title := "t", content := "b"
    location := originAnchor, unlockMethod := UnlockMethod.time
    unlockTime := some 0, createdAt := 0, openedAt := some 5
    status := CapsuleStatus.opened, mediaUrls := [] }

/-- A sealed time capsule unlocking at epoch millisecond
`183660000` (2 days, 3 hours and 1 minute past the epoch). -/
def timedCapsule : Capsule :=
  { id := "c2", userId := "u1", creatorName := none, title := "t", content := "b"
    location := originAnchor, unlockMethod := UnlockMethod.time
    unlockTime := some 183660000, createdAt := 0, openedAt := none
    status := CapsuleStatus.sealed, mediaUrls := [] }

/-- A sealed location capsule anchored at the origin. -/
def locationCapsule : Capsule :=
  { id := "c3", userId := "u1", creatorName := none, title := "t", content := "b"
    location := originAnchor, unlockMethod := UnlockMethod.location
    unlockTime := none, createdAt := 0, openedAt := none
    status := CapsuleStatus.sealed, mediaUrls := [] }

/-- A sealed time capsule whose `unlockTime` is null. -/
def timeNullCapsule : Capsule :=
  { id := "c4", userId := "u1", creatorName := none, title := "t", content := "b"
    location := originAnchor, unlockMethod := UnlockMethod.time
    unlockTime := none, createdAt := 0, openedAt := none
    status := CapsuleStatus.sealed, mediaUrls := [] }

/-- A well-formed creation input. -/
def sampleFormData : CapsuleFormData :=
  { title := "hello", content := "world", location := originAnchor
    unlockMethod := UnlockMethod.immediate, unlockTime := none }

/-- A creation input the spec calls invalid: empty title and content,
latitude `200` (outside `-90..90`) and longitude `500` (outside
`-180..180`). -/
def invalidFormData : CapsuleFormData :=
  { title := "", content := ""
    location := { latitude := 200, longitude := 500, name := none }
    unlockMethod := UnlockMethod.immediate, unlockTime := none }

/-- The store state after creating one capsule in the empty store. -/
def sampleState1 : List Capsule :=
  (createCapsule 0 "c1" "u1" none sampleFormData []).1

/-- The store state after then opening that capsule at instant `5`. -/
def sampleState2 : List Capsule :=
  (openCapsule 5 "c1" sampleState1).1

/-- The row `sampleState2` holds. -/
def sampleOpenRow : Capsule :=
  { id := "c1", userId := "u1", creatorName := none, title := "hello"
    content := "world", location := originAnchor
    unlockMethod := UnlockMethod.immediate, unlockTime := none
    createdAt := 0, openedAt := some 5
    status := CapsuleStatus.opened, mediaUrls := [] }

/-! Theorems. -/

/-- Claim C4: for every capsule whose status is opened, the evaluator
returns `canOpen = true` with the already-opened message, regardless
of the evaluation instant and of whether a user position is supplied;
being a total pure function of its inputs, every subsequent
evaluation with any input returns the same `canOpen = true` result
and never errors. -/
theorem checkCapsuleStatus_opened_idempotent (now : Int) (capsule : Capsule)
    (userLocation : Option GeoPoint) (h : capsule.status = CapsuleStatus.opened) :
    checkCapsuleStatus now capsule userLocation =
      { canOpen := true, message := "This capsule has already been opened." } := by
  simp [checkCapsuleStatus, h]

/-- Witness for C4 at a concrete opened capsule, with and without a
position and at two different instants. -/
theorem checkCapsuleStatus_opened_idempotent_witness :
    checkCapsuleStatus 123 openedCapsule none =
      { canOpen := true, message := "This capsule has already been opened." } ∧
    checkCapsuleStatus 456 openedCapsule (some originPoint) =
      { canOpen := true, message := "This capsule has already been opened." } :=
  ⟨checkCapsuleStatus_opened_idempotent 123 openedCapsule none rfl,
   checkCapsuleStatus_opened_idempotent 456 openedCapsule (some originPoint) rfl⟩

/-- Claim C5: for every sealed capsule with `unlockMethod = location`,
when no user position is supplied the evaluator returns
`canOpen = false` with the message prompting the user to enable
location services. -/
theorem checkCapsuleStatus_location_requires_position (now : Int) (capsule : Capsule)
    (hs : capsule.status = CapsuleStatus.sealed)
    (hm : capsule.unlockMethod = UnlockMethod.location) :
    checkCapsuleStatus now capsule none =
      { canOpen := false,
        message := "Please enable location services to open this capsule." } := by
  obtain ⟨i, u, cn, ti, co, loc, um, ut, ca, oa, st, mu⟩ := capsule
  dsimp only at hs hm
  subst hs hm
  cases ut <;> simp [checkCapsuleStatus]

/-- Witness for C5 at a concrete sealed location capsule. -/
theorem checkCapsuleStatus_location_requires_position_witness :
    checkCapsuleStatus 7 locationCapsule none =
      { canOpen := false,
        message := "Please enable location services to open this capsule." } :=
  checkCapsuleStatus_location_requires_position 7 locationCapsule rfl rfl

/-- Claim C10: for every sealed capsule with `unlockMethod = time` and
a null `unlockTime`, the evaluator skips the time branch, is not
caught by the location branch, and falls through to the default case:
`canOpen = true` with the ready-to-be-opened message. -/
theorem checkCapsuleStatus_time_null_falls_through (now : Int) (capsule : Capsule)
    (userLocation : Option GeoPoint)
    (hs : capsule.status = CapsuleStatus.sealed)
    (hm : capsule.unlockMethod = UnlockMethod.time)
    (ht : capsule.unlockTime = none) :
    checkCapsuleStatus now capsule userLocation =
      { canOpen := true, message := "This capsule is ready to be opened!" } := by
  obtain ⟨i, u, cn, ti, co, loc, um, ut, ca, oa, st, mu⟩ := capsule
  dsimp only at hs hm ht
  subst hs hm ht
  simp [checkCapsuleStatus]

/-- Witness for C10 at a concrete sealed time capsule with null
`unlockTime`. -/
theorem checkCapsuleStatus_time_null_falls_through_witness :
    checkCapsuleStatus 9 timeNullCapsule none =
      { canOpen := true, message := "This capsule is ready to be opened!" } :=
  checkCapsuleStatus_time_null_falls_through 9 timeNullCapsule none rfl rfl rfl

/-- For a strictly future target, `getTimeLeft` computes exactly the
floor decomposition of the millisecond delta: days by flooring the
delta over `86400000`, then hours and minutes from the floored
remainders, choosing days+hours when at least one whole day is left
and hours+minutes otherwise. -/
theorem getTimeLeft_floor (currentDate targetDate : Int)
    (h : currentDate < targetDate) :
    getTimeLeft currentDate targetDate =
      if 1 ≤ (targetDate - currentDate) / 86400000 then
        toString ((targetDate - currentDate) / 86400000) ++ " days and " ++
          toString ((targetDate - currentDate) % 86400000 / 3600000) ++ " hours"
      else
        toString ((targetDate - currentDate) % 86400000 / 3600000) ++ " hours and " ++
          toString ((targetDate - currentDate) % 3600000 / 60000) ++ " minutes" := by
  have hms : (0:Int) ≤ targetDate - currentDate := by omega
  have h86 : (0:Int) ≤ 86400000 := by norm_num
  have h36 : (0:Int) ≤ 3600000 := by norm_num
  have h06 : (0:Int) ≤ 60000 := by norm_num
  simp only [getTimeLeft]
  rw [Int.tmod_eq_emod hms h86, Int.tmod_eq_emod hms h36,
    Int.fdiv_eq_ediv _ h86, Int.fdiv_eq_ediv _ h36, Int.fdiv_eq_ediv _ h06]
  have hiff : (0 < (targetDate - currentDate) / 86400000) ↔
      (1 ≤ (targetDate - currentDate) / 86400000) := by omega
  simp only [hiff]

/-- Claim C2: for every sealed capsule with `unlockMethod = time` and a
non-null `unlockTime`, the evaluator grants `canOpen = true` exactly
when `now` is at or after `unlockTime` (so `canOpen = false` one
millisecond before it); when the capsule is still locked, the message
states the remaining duration obtained by flooring the millisecond
delta, as days and hours when at least one day remains and as hours
and minutes otherwise, never rounding up. -/
theorem checkCapsuleStatus_time_gate (now unlockTime : Int) (capsule : Capsule)
    (userLocation : Option GeoPoint)
    (hs : capsule.status = CapsuleStatus.sealed)
    (hm : capsule.unlockMethod = UnlockMethod.time)
    (ht : capsule.unlockTime = some unlockTime) :
    ((checkCapsuleStatus now capsule userLocation).canOpen = true ↔ unlockTime ≤ now) ∧
    (now < unlockTime →
      checkCapsuleStatus now capsule userLocation =
        { canOpen := false
          message := "This capsule will be unlockable in " ++
            (if 1 ≤ (unlockTime - now) / 86400000 then
              toString ((unlockTime - now) / 86400000) ++ " days and " ++
                toString ((unlockTime - now) % 86400000 / 3600000) ++ " hours"
            else
              toString ((unlockTime - now) % 86400000 / 3600000) ++ " hours and " ++
                toString ((unlockTime - now) % 3600000 / 60000) ++ " minutes") ++ "." }) := by
  obtain ⟨i, u, cn, ti, co, loc, um, ut, ca, oa, st, mu⟩ := capsule
  dsimp only at hs hm ht
  subst hs hm ht
  constructor
  · simp only [checkCapsuleStatus]
    split_ifs with h1 h2 <;> simp_all
  · intro hlt
    rw [← getTimeLeft_floor now unlockTime hlt]
    simp only [checkCapsuleStatus]
    rw [if_neg (by simp), if_neg (by omega)]

/-- Witness for C2 at a concrete sealed time capsule evaluated at
instant `0`, 2 days, 3 hours and 1 minute before its unlock time. -/
theorem checkCapsuleStatus_time_gate_witness :
    ((checkCapsuleStatus 0 timedCapsule none).canOpen = true ↔ (183660000:Int) ≤ 0) ∧
    ((0:Int) < 183660000 →
      checkCapsuleStatus 0 timedCapsule none =
        { canOpen := false
          message := "This capsule will be unlockable in " ++
            (if 1 ≤ ((183660000:Int) - 0) / 86400000 then
              toString (((183660000:Int) - 0) / 86400000) ++ " days and " ++
                toString (((183660000:Int) - 0) % 86400000 / 3600000) ++ " hours"
            else
              toString (((183660000:Int) - 0) % 86400000 / 3600000) ++ " hours and " ++
                toString (((183660000:Int) - 0) % 3600000 / 60000) ++ " minutes") ++ "." }) :=
  checkCapsuleStatus_time_gate 0 183660000 timedCapsule none rfl rfl rfl

/-- Squares of sines are unchanged when the angle difference is
reversed. -/
theorem sin_sq_swap (u v : ℝ) :
    Real.sin ((u - v) * (Real.pi / 180) / 2) * Real.sin ((u - v) * (Real.pi / 180) / 2) =
      Real.sin ((v - u) * (Real.pi / 180) / 2) * Real.sin ((v - u) * (Real.pi / 180) / 2) := by
  have e : (u - v) * (Real.pi / 180) / 2 = -((v - u) * (Real.pi / 180) / 2) := by ring
  rw [e, Real.sin_neg]
  ring

/-- The haversine intermediate value is symmetric in its endpoints. -/
theorem haversineTerm_comm (l1 l2 : GeoPoint) :
    haversineTerm l1 l2 = haversineTerm l2 l1 := by
  unfold haversineTerm deg2rad
  rw [sin_sq_swap l2.latitude l1.latitude, sin_sq_swap l2.longitude l1.longitude]
  ring

/-- The haversine intermediate value vanishes on the diagonal. -/
theorem haversineTerm_self (l : GeoPoint) : haversineTerm l l = 0 := by
  simp [haversineTerm, deg2rad]

/-- The haversine distance from a point to itself is zero. -/
theorem haversineDistanceKm_self (l : GeoPoint) : haversineDistanceKm l l = 0 := by
  have h1 : (⟨1, 0⟩ : ℂ) = 1 := by
    refine Complex.ext ?_ ?_ <;> simp
  simp [haversineDistanceKm, haversineTerm_self, atan2, h1]

/-- Claim C9: the great-circle distance of the geo module is symmetric
in its two arguments and zero from any point to itself; as a plain
function of its arguments it is pure, with no side effects. -/
theorem distanceMeters_symm_and_self_zero :
    (∀ a b : GeoPoint, distanceMeters a b = distanceMeters b a) ∧
    (∀ a : GeoPoint, distanceMeters a a = 0) := by
  constructor
  · intro a b
    unfold distanceMeters haversineDistanceKm
    rw [haversineTerm_comm]
  · intro a
    unfold distanceMeters
    rw [haversineDistanceKm_self]
    ring

/-- The miscalled `isNearLocation(userLocation, capsuleLocation, 0.1)`
of the store evaluator: with the position objects and the missing
fourth argument behaving as `NaN` and the threshold defaulting to
`50`, the haversine distance is `NaN` and the comparison is false. -/
theorem geolocation_miscall_false :
    Geolocation.isNearLocation JSNumber.nan JSNumber.nan
      (JSNumber.num 0.1) JSNumber.nan (JSNumber.num 50) = false := rfl

/-- Claim C3 (refuted by the code): the claim asks that a sealed
location capsule with a supplied position open exactly when the
haversine distance to the anchor is at most 100 meters, but the store
evaluator calls the five-parameter `isNearLocation` of
`lib/geolocation` with two position objects, `0.1` and an absent
fourth argument, so the distance computes to `NaN`, the comparison
against the default 50-meter threshold is false, and the evaluator
denies access for every user position — even one standing exactly at
the anchor. -/
theorem checkCapsuleStatus_location_never_grants (now : Int) (capsule : Capsule)
    (userLoc : GeoPoint)
    (hs : capsule.status = CapsuleStatus.sealed)
    (hm : capsule.unlockMethod = UnlockMethod.location) :
    checkCapsuleStatus now capsule (some userLoc) =
      { canOpen := false
        message := "You need to be closer to the capsule location to open it." } := by
  obtain ⟨i, u, cn, ti, co, loc, um, ut, ca, oa, st, mu⟩ := capsule
  dsimp only at hs hm
  subst hs hm
  have hfalse := geolocation_miscall_false
  cases ut <;> simp [checkCapsuleStatus, hfalse]

/-- Witness for C3 at the failing input: a sealed location capsule
anchored at the origin, the user position exactly at the anchor
(haversine distance 0 m, well within 100 m), yet the evaluator
returns `canOpen = false` with the need-to-be-closer message. -/
theorem checkCapsuleStatus_location_never_grants_witness :
    checkCapsuleStatus 3 locationCapsule (some originPoint) =
      { canOpen := false
        message := "You need to be closer to the capsule location to open it." } :=
  checkCapsuleStatus_location_never_grants 3 locationCapsule originPoint rfl rfl

/-- A map that fixes every element of a list leaves the list
unchanged. -/
theorem map_fixes {α : Type} (f : α → α) (l : List α)
    (h : ∀ x ∈ l, f x = x) : l.map f = l := by
  induction l with
  | nil => rfl
  | cons a t ih =>
    simp only [List.map_cons]
    rw [h a (by simp), ih fun x hx => h x (by simp [hx])]

/-- After an `openCapsule` call, no row with the targeted id is still
sealed. -/
theorem openCapsule_no_sealed (now : Int) (capsuleId : String) (state : List Capsule) :
    ∀ c ∈ (openCapsule now capsuleId state).1,
      ¬(c.id = capsuleId ∧ c.status = CapsuleStatus.sealed) := by
  intro c hc
  simp only [openCapsule, List.mem_map] at hc
  obtain ⟨c₀, hc₀, rfl⟩ := hc
  by_cases hcond : c₀.id = capsuleId ∧ c₀.status = CapsuleStatus.sealed
  · rw [if_pos hcond]
    rintro ⟨-, hst⟩
    simp at hst
  · rw [if_neg hcond]
    exact hcond

/-- Claim C1: `openCapsule` is a conditional update, never a blind
overwrite: it opens exactly the rows with the given id whose current
status is sealed, stamping `openedAt = now` together with the status,
leaves every other row untouched, and reports success exactly when
such a transition occurred; running it again on the resulting state
updates nothing and reports that no transition happened. -/
theorem openCapsule_conditional_transition (now now2 : Int) (capsuleId : String)
    (state : List Capsule) :
    ((openCapsule now capsuleId state).2 = true ↔
      ∃ c ∈ state, c.id = capsuleId ∧ c.status = CapsuleStatus.sealed) ∧
    (∀ c ∈ state, c.id = capsuleId → c.status = CapsuleStatus.sealed →
      { c with status := CapsuleStatus.opened, openedAt := some now } ∈
        (openCapsule now capsuleId state).1) ∧
    (∀ c ∈ state, ¬(c.id = capsuleId ∧ c.status = CapsuleStatus.sealed) →
      c ∈ (openCapsule now capsuleId state).1) ∧
    openCapsule now2 capsuleId (openCapsule now capsuleId state).1 =
      ((openCapsule now capsuleId state).1, false) := by
  refine ⟨?_, ?_, ?_, ?_⟩
  · simp [openCapsule, List.any_eq_true]
  · intro c hc h1 h2
    simp only [openCapsule]
    exact List.mem_map.mpr ⟨c, hc, by rw [if_pos ⟨h1, h2⟩]⟩
  · intro c hc hneg
    simp only [openCapsule]
    exact List.mem_map.mpr ⟨c, hc, by rw [if_neg hneg]⟩
  · have hkey := openCapsule_no_sealed now capsuleId state
    set s2 := (openCapsule now capsuleId state).1 with hs2
    have h1 : (openCapsule now2 capsuleId s2).1 = s2 := by
      simp only [openCapsule]
      exact map_fixes _ s2 fun c hc => if_neg (hkey c hc)
    have h2 : (openCapsule now2 capsuleId s2).2 = false := by
      simp only [openCapsule, List.any_eq_false, decide_eq_true_eq]
      exact hkey
    calc openCapsule now2 capsuleId s2
        = ((openCapsule now2 capsuleId s2).1, (openCapsule now2 capsuleId s2).2) := rfl
      _ = (s2, false) := by rw [h1, h2]

/-- Witness for C1 on the one-row store holding a sealed capsule with
id `"c1"`. -/
theorem openCapsule_conditional_transition_witness :
    ((openCapsule 5 "c1" sampleState1).2 = true ↔
      ∃ c ∈ sampleState1, c.id = "c1" ∧ c.status = CapsuleStatus.sealed) ∧
    (∀ c ∈ sampleState1, c.id = "c1" → c.status = CapsuleStatus.sealed →
      { c with status := CapsuleStatus.opened, openedAt := some 5 } ∈
        (openCapsule 5 "c1" sampleState1).1) ∧
    (∀ c ∈ sampleState1, ¬(c.id = "c1" ∧ c.status = CapsuleStatus.sealed) →
      c ∈ (openCapsule 5 "c1" sampleState1).1) ∧
    openCapsule 9 "c1" (openCapsule 5 "c1" sampleState1).1 =
      ((openCapsule 5 "c1" sampleState1).1, false) :=
  openCapsule_conditional_transition 5 9 "c1" sampleState1

/-- Claim C7: in every store state reachable through the service
operations, the `openedAt` of a capsule is non-null exactly when its
status is opened: creation initializes `status = sealed` with
`openedAt = null`, the single open transition sets both fields
together, and no other operation touches either field. -/
theorem reachable_openedAt_iff_opened (s : List Capsule) (hr : Reachable s) :
    ∀ c ∈ s, (c.openedAt ≠ none ↔ c.status = CapsuleStatus.opened) := by
  induction hr with
  | empty => intro c hc; simp at hc
  | createStep now newId userId creatorName data s hs ih =>
    intro c hc
    simp only [createCapsule, List.mem_append, List.mem_singleton] at hc
    rcases hc with hc | rfl
    · exact ih c hc
    · simp
  | openStep now capsuleId s hs ih =>
    intro c hc
    simp only [openCapsule, List.mem_map] at hc
    obtain ⟨c₀, hc₀, rfl⟩ := hc
    by_cases hcond : c₀.id = capsuleId ∧ c₀.status = CapsuleStatus.sealed
    · rw [if_pos hcond]; simp
    · rw [if_neg hcond]; exact ih c₀ hc₀
  | deleteStep capsuleId s hs ih =>
    intro c hc
    simp only [deleteCapsule] at hc
    exact ih c (List.mem_of_mem_filter hc)

/-- Witness for C7 on the reachable state obtained by creating one
capsule and then opening it, checked at the opened row. -/
theorem reachable_openedAt_iff_opened_witness :
    sampleOpenRow.openedAt ≠ none ↔ sampleOpenRow.status = CapsuleStatus.opened :=
  reachable_openedAt_iff_opened sampleState2
    (Reachable.openStep 5 "c1" sampleState1
      (Reachable.createStep 0 "c1" "u1" none sampleFormData [] Reachable.empty))
    sampleOpenRow
    (by simp [sampleState2, sampleState1, sampleOpenRow, openCapsule, createCapsule,
      sampleFormData, originAnchor])

/-- Claim C8: deleting an id that has no backing row reports the
not-found outcome `false`, distinguishable from the `true` a
successful deletion returns; it never silently reports success. -/
theorem deleteCapsule_missing_id_reports_failure (capsuleId : String)
    (state : List Capsule) (h : ∀ c ∈ state, c.id ≠ capsuleId) :
    deleteCapsule capsuleId state = (state, false) := by
  unfold deleteCapsule
  simp only [Prod.mk.injEq]
  constructor
  · rw [List.filter_eq_self]
    intro c hc
    simpa using h c hc
  · rw [List.any_eq_false]
    intro c hc
    simpa using h c hc

/-- Witness for C8: deleting the never-created id `"zzz"` from the
one-row store. -/
theorem deleteCapsule_missing_id_reports_failure_witness :
    deleteCapsule "zzz" sampleState1 = (sampleState1, false) :=
  deleteCapsule_missing_id_reports_failure "zzz" sampleState1 (by
    intro c hc
    simp only [sampleState1, createCapsule, List.nil_append, List.mem_singleton] at hc
    subst hc
    simp)

/-- Counterexample to claim C6: the store performs no validation on
create.  `invalidFormData` has empty title and content and
coordinates far outside the valid ranges, yet `createCapsule` still
inserts one capsule record built from it. -/
theorem createCapsule_accepts_invalid_input :
    invalidFormData.title = "" ∧ invalidFormData.content = "" ∧
    invalidFormData.location.latitude = 200 ∧
    invalidFormData.location.longitude = 500 ∧
    (90:ℝ) < 200 ∧ (180:ℝ) < 500 ∧
    (createCapsule 0 "c1" "u1" none invalidFormData []).1.length = 1 :=
  ⟨rfl, rfl, rfl, rfl, by norm_num, by norm_num, rfl⟩

/-- Claim C6 as amended: `createCapsule` performs no input validation
before inserting: for every input — including inputs with empty title
or content or with out-of-range coordinates — it appends exactly one
capsule record carrying the fields of the input, sealed and unopened, and
returns the new id. -/
theorem createCapsule_inserts_unconditionally (now : Int) (newId userId : String)
    (creatorName : Option String) (data : CapsuleFormData) (state : List Capsule) :
    ∃ c : Capsule,
      (createCapsule now newId userId creatorName data state).1 = state ++ [c] ∧
      c.title = data.title ∧ c.content = data.content ∧
      c.location = data.location ∧ c.status = CapsuleStatus.sealed ∧
      c.openedAt = none ∧
      (createCapsule now newId userId creatorName data state).2 = newId :=
  ⟨_, rfl, rfl, rfl, rfl, rfl, rfl, rfl⟩

end TimeCapsule
